import Mathlib

/-!
Verification of the real-time analysis pipeline of the Pitchly repository.

The development shallowly embeds the pipeline's core:
* the tip sanitizer (`sanitizeTips`, `normalizeTip` and helpers) from
  `src/hooks/useRealtimeAnalysis.ts`;
* the `PaceTracker` class from `src/utils/paceTracker.ts`;
* the request pipeline / dispatcher of `useRealtimeAnalysis.ts`
  (`harvestAndFire`, its response handlers, `startAnalysis`, `stopAnalysis`)
  as a step function on an explicit pipeline state.

Modelling conventions:
* JS strings are `List Char` (`Str`); JS string truthiness (`if (s)`) is
  the check `s ≠ []`, matching JS where only the empty string is falsy.
* JS numbers are `ℚ`: the pipeline's arithmetic (clamps, blends, decay)
  is exact rational arithmetic here; `Math.min` / `Math.max` / `Math.abs`
  are the if-based `jsMin` / `jsMax` / `jsAbs`.
* the regex whitespace class `\s` is modelled by the ASCII whitespace
  characters (space, tab, newline, carriage return), which covers every
  string the pipeline manipulates.
-/

namespace Pitchly

/-- JS strings, as character lists. -/
abbrev Str := List Char

/-- ASCII whitespace, modelling the regex class `\s`. -/
def isWs (c : Char) : Bool := c = ' ' || c = '\t' || c = '\n' || c = '\r'

/-- Leading-whitespace removal (the `\s*` consumed after a stripped phrase). -/
def trimLeft (s : Str) : Str := s.dropWhile isWs

/-- JS `String.prototype.trim`. -/
def trimStr (s : Str) : Str := ((s.dropWhile isWs).reverse.dropWhile isWs).reverse

/-- JS `String.prototype.toLowerCase` (ASCII inputs). -/
def lowerStr (s : Str) : Str := s.map Char.toLower

/-- JS `hay.includes(needle)`: substring test. -/
def strIncludes (hay needle : Str) : Bool :=
  hay.tails.any (fun t => needle.isPrefixOf t)

/-- Split on runs of whitespace, keeping only nonempty words: the effect of
JS `text.split(/\s+/)` on a string with no leading/trailing whitespace
(every call site passes such a string), and of
`text.split(/\s+/).filter(Boolean)` on any string. -/
def splitWs (s : Str) : List Str :=
  (s.foldr
    (fun c acc =>
      if isWs c then [] :: acc
      else
        match acc with
        | [] => [[c]]
        | w :: ws => (c :: w) :: ws)
    []).filter (fun w => w ≠ [])

/-- JS `countWords` from `useRealtimeAnalysis.ts`:
`text.trim().split(/\s+/).filter(Boolean).length`. -/
def countWords (text : Str) : Nat := (splitWs (trimStr text)).length

/-! ## Tip sanitizer (`useRealtimeAnalysis.ts`) -/

/-- The window size `RECENT_TIPS_WINDOW = 6` of the de-duplication history. -/
def RECENT_TIPS_WINDOW : Nat := 6

/-- The cap `MAX_TIP_WORDS = 12` on tip length. -/
def MAX_TIP_WORDS : Nat := 12

/-- The alternatives of the anti-pattern regex
`/^(You said|You mentioned|Your pitch|You should|The user|Try to|Consider)\s*/i`,
in the order the regex tries them. -/
def forbiddenPhrases : List Str :=
  ["You said".data, "You mentioned".data, "Your pitch".data,
   "You should".data, "The user".data, "Try to".data, "Consider".data]

/-- One application of `text.replace(/^(…)\s*/i, '')`: the first alternative
that matches case-insensitively at the start is removed together with the
whitespace run that follows it. -/
def stripLeadingPhrase (text : Str) : Str :=
  match forbiddenPhrases.find? (fun p => (lowerStr p).isPrefixOf (lowerStr text)) with
  | some p => trimLeft (text.drop p.length)
  | none => text

/-- The re-capitalization `text[0].toUpperCase() + text.slice(1)` (guarded in
the source by `text.length > 0`, which the empty case covers). -/
def capitalizeFirst : Str → Str
  | [] => []
  | c :: rest => c.toUpper :: rest

/-- The closed set of dangling words stripped after truncation
(`/\s+(and|but|or|the|a|to|for|in|on|with|that|is)$/i`). -/
def danglingWords : List Str :=
  ["and".data, "but".data, "or".data, "the".data, "a".data, "to".data,
   "for".data, "in".data, "on".data, "with".data, "that".data, "is".data]

/-- Truncation to `MAX_TIP_WORDS` words, with the trailing dangling
conjunction/preposition/article removed when truncation happened. -/
def truncateTip (text : Str) : Str :=
  let words := splitWs text
  if MAX_TIP_WORDS < words.length then
    let kept := words.take MAX_TIP_WORDS
    let kept :=
      match kept.getLast? with
      | some w => if danglingWords.contains (lowerStr w) then kept.dropLast else kept
      | none => kept
    List.intercalate [' '] kept
  else text

/-- The whole per-tip text rewrite of `sanitizeTips`: trim, strip one
forbidden leading phrase, re-capitalize, truncate. -/
def processTipText (raw : Str) : Str :=
  truncateTip (capitalizeFirst (stripLeadingPhrase (trimStr raw)))

/-- `normalizeTip` from `useRealtimeAnalysis.ts`:
`text.toLowerCase().replace(/[^a-z0-9\s]/g, '').trim()`. -/
def normalizeTip (text : Str) : Str :=
  trimStr ((lowerStr text).filter
    (fun c => ('a' ≤ c && c ≤ 'z') || ('0' ≤ c && c ≤ '9') || isWs c))

/-- A coaching tip (`CoachingTip` in `types/pitch.ts`); `category` and
`priority` are kept as strings. -/
structure CoachingTip where
  id : Str
  text : Str
  category : Str
  priority : Str
deriving DecidableEq

/-- The duplicate test of `sanitizeTips`: the normalized candidate equals,
contains, or is contained in some normalized recent tip. -/
def isDuplicateTip (window : List Str) (norm : Str) : Bool :=
  window.any (fun recent =>
    let r := normalizeTip recent
    r == norm || strIncludes r norm || strIncludes norm r)

/-- The `for (const tip of tips)` loop of `sanitizeTips`. The de-duplication
window is the one captured at call entry: the source checks against
`recentTipTexts`, which the loop does not modify. -/
def sanitizeLoop (window : List Str) : List CoachingTip → List CoachingTip
  | [] => []
  | tip :: rest =>
    let text := processTipText tip.text
    if isDuplicateTip window (normalizeTip text) = false ∧ text ≠ [] then
      { tip with text := text } :: sanitizeLoop window rest
    else
      sanitizeLoop window rest

/-- `sanitizeTips` from `useRealtimeAnalysis.ts`. The module-level mutable
`recentTipTexts` is made an explicit argument and result: the function
returns the cleaned tips and the updated window (pushed texts of the cleaned
tips, then trimmed to the last `RECENT_TIPS_WINDOW` entries via `slice(-6)`
when it exceeds the cap). -/
def sanitizeTips (tips : List CoachingTip) (window : List Str) :
    List CoachingTip × List Str :=
  let cleaned := sanitizeLoop window tips
  let w := window ++ cleaned.map (fun t => t.text)
  (cleaned, if RECENT_TIPS_WINDOW < w.length then w.drop (w.length - RECENT_TIPS_WINDOW) else w)

example :
    processTipText "You should consider X".data = "Consider X".data := by decide

example :
    processTipText "Consider X".data = "X".data := by decide

example :
    sanitizeTips [⟨"t1".data, "You should consider X".data, "content".data, "high".data⟩] [] =
      ([⟨"t1".data, "Consider X".data, "content".data, "high".data⟩], ["Consider X".data]) := by
  decide

example :
    sanitizeTips [⟨"t1".data, "Consider X".data, "content".data, "high".data⟩]
      ["Consider X".data] = ([], ["Consider X".data]) := by decide

/-! ## PaceTracker (`src/utils/paceTracker.ts`)

JS numbers are modelled as exact rationals. -/

/-- `WINDOW_MS = 1800`. -/
def WINDOW_MS : ℚ := 1800

/-- `OPTIMAL_WPS = 2.5` (~150 WPM). -/
def OPTIMAL_WPS : ℚ := 5 / 2

/-- `SILENCE_THRESHOLD_MS = 800`. -/
def SILENCE_THRESHOLD_MS : ℚ := 800

/-- `SILENCE_DECAY = 0.92`. -/
def SILENCE_DECAY : ℚ := 92 / 100

/-- `BIAS = 1.1`. -/
def BIAS : ℚ := 11 / 10

/-- `Math.min` on rationals. -/
def jsMin (a b : ℚ) : ℚ := if a ≤ b then a else b

/-- `Math.max` on rationals. -/
def jsMax (a b : ℚ) : ℚ := if b ≤ a then a else b

/-- `Math.abs` on rationals. -/
def jsAbs (x : ℚ) : ℚ := if x < 0 then -x else x

/-- `Math.max(-1, Math.min(1, x))`, the clamp to `[-1, 1]` used twice in
`PaceTracker.update`. -/
def clampUnit (x : ℚ) : ℚ := jsMax (-1) (jsMin 1 x)

/-- The mutable fields of the `PaceTracker` class. -/
structure PaceTracker where
  wordTimestamps : List ℚ
  smoothedPace : ℚ
  lastWordTime : ℚ
deriving DecidableEq

/-- The freshly constructed tracker, which `reset()` also restores. -/
def PaceTracker.reset : PaceTracker := ⟨[], 0, 0⟩

/-- `addWords(count, timestamp)`: push `count` copies of `timestamp`; update
`lastWordTime` only when `count > 0`. -/
def PaceTracker.addWords (p : PaceTracker) (count : Nat) (timestamp : ℚ) : PaceTracker :=
  { p with
    wordTimestamps := p.wordTimestamps ++ List.replicate count timestamp
    lastWordTime := if 0 < count then timestamp else p.lastWordTime }

/-- The eviction loop of `update`: shift from the front while the head
timestamp is older than the cutoff. -/
def evictOld (cutoff : ℚ) : List ℚ → List ℚ
  | [] => []
  | t :: rest => if t < cutoff then evictOld cutoff rest else t :: rest

/-- `update(now)`, returning the pair (returned score, tracker after the
call). Silence branch: when a word has been recorded (`lastWordTime > 0`)
and more than `SILENCE_THRESHOLD_MS` elapsed since, the smoothed estimate
decays by `SILENCE_DECAY`. Otherwise the raw clamped score is recomputed
from the window and blended in with the adaptive coefficient. The returned
value is the smoothed estimate biased by `BIAS` and clamped to `[-1, 1]`. -/
def PaceTracker.update (p : PaceTracker) (now : ℚ) : ℚ × PaceTracker :=
  let ts := evictOld (now - WINDOW_MS) p.wordTimestamps
  let smoothed :=
    if 0 < p.lastWordTime ∧ SILENCE_THRESHOLD_MS < now - p.lastWordTime then
      p.smoothedPace * SILENCE_DECAY
    else
      let wps := (ts.length : ℚ) / (WINDOW_MS / 1000)
      let paceScore := clampUnit ((wps - OPTIMAL_WPS) / OPTIMAL_WPS)
      let delta := jsAbs (paceScore - p.smoothedPace)
      let alpha : ℚ := if 3 / 10 < delta then 45 / 100 else if 15 / 100 < delta then 3 / 10 else 15 / 100
      alpha * paceScore + (1 - alpha) * p.smoothedPace
  (clampUnit (smoothed * BIAS), { p with wordTimestamps := ts, smoothedPace := smoothed })

/-- A call against the tracker: the two public mutators. -/
inductive PaceOp
  | addWords (count : Nat) (timestamp : ℚ)
  | update (now : ℚ)

/-- Run a finite call sequence, collecting every value `update` returned,
in call order. -/
def paceRun : PaceTracker → List PaceOp → PaceTracker × List ℚ
  | p, [] => (p, [])
  | p, .addWords c t :: rest => paceRun (p.addWords c t) rest
  | p, .update now :: rest =>
    let r := p.update now
    let rec' := paceRun r.2 rest
    (rec'.1, r.1 :: rec'.2)

example : (paceRun PaceTracker.reset [.update 100]).2 = [-99 / 200] := by
  norm_num [paceRun, PaceTracker.update, PaceTracker.reset, evictOld, clampUnit,
    jsMin, jsMax, jsAbs, WINDOW_MS, OPTIMAL_WPS, SILENCE_THRESHOLD_MS, SILENCE_DECAY, BIAS]

/-! ## Request pipeline / dispatcher (`src/hooks/useRealtimeAnalysis.ts`)

The hook's refs (`activeRef`, `seqRef`, `lastDisplayedSeqRef`, `inflightRef`,
`paceTrackerRef`, `prevWordCountRef`, the module-level `recentTipTexts`) and
its React state record become one explicit `PipelineState`; the timer
callbacks and promise continuations become events of a step function.
Responses resolve in arbitrary order, so a trace is an arbitrary event
list. -/

/-- `MAX_INFLIGHT = 3`. -/
def MAX_INFLIGHT : Nat := 3

/-- `MIN_AUDIO_SAMPLES = 2400` (~100ms at 24kHz). -/
def MIN_AUDIO_SAMPLES : Nat := 2400

/-- A signal rating (`Signal` in `types/pitch.ts`). -/
structure Signal where
  label : Str
  value : Str
deriving DecidableEq

/-- `PitchData` from `types/pitch.ts`. -/
structure PitchData where
  tips : List CoachingTip
  signals : List Signal
  coachNote : Str
deriving DecidableEq

/-- The IPC result of `window.pitchly.analyzeAudio`
(`AnalyzeAudioResponse` in `types/pitch.ts`). The optional string fields
are plain strings with `[]` standing for absent/empty: the source only ever
tests them for JS truthiness, and an absent string and an empty one are both
falsy. -/
structure AnalyzeResult where
  error : Str
  transcript : Str
  data : Option PitchData
deriving DecidableEq

/-- The React `AnalysisState` record of the hook (the externally observable
session state). `error` is `none` for JS `null`. -/
structure SessionState where
  pitchData : Option PitchData
  isAnalyzing : Bool
  cycleCount : Nat
  error : Option Str
  tipHistory : List CoachingTip
  pace : ℚ
  transcript : Str
deriving DecidableEq

/-- The state the hook resets to (`useState` initializer and the reset in
`startAnalysis`). -/
def initSession : SessionState :=
  { pitchData := none, isAnalyzing := false, cycleCount := 0, error := none
    tipHistory := [], pace := 0, transcript := [] }

/-- The full pipeline state: the session record plus the hook's refs.
`pending` holds the sequence numbers of dispatched, not-yet-settled
requests (each dispatched promise settles exactly once). -/
structure PipelineState where
  session : SessionState
  active : Bool
  seqCounter : Nat
  lastDisplayedSeq : Nat
  inflight : Nat
  pending : List Nat
  paceTracker : PaceTracker
  prevWordCount : Nat
  recentTipTexts : List Str
deriving DecidableEq

/-- The pipeline before `startAnalysis` is ever called. -/
def PipelineState.idle : PipelineState :=
  { session := initSession, active := false, seqCounter := 0, lastDisplayedSeq := 0
    inflight := 0, pending := [], paceTracker := PaceTracker.reset
    prevWordCount := 0, recentTipTexts := [] }

/-- The events that drive the pipeline: the two public entry points, the
2s-cycle harvest callback (carrying the harvested sample count), the
fulfilment of a dispatched request (carrying the wall-clock time at which
the continuation runs), its rejection, and the 100ms pace-update tick. -/
inductive Event
  | start (hasAudioTrack : Bool)
  | stop
  | harvest (totalSamples : Nat)
  | resolve (seq : Nat) (result : AnalyzeResult) (now : ℚ)
  | reject (seq : Nat) (message : Str)
  | paceTick (now : ℚ)

/-- `startAnalysis`: sets the active flag, resets every ref, the tracker, the
de-duplication window and the session record; when the stream has no audio
track it surfaces the fatal error (the source does this after having already
set `activeRef.current = true`, and starts no timers). -/
def startAnalysis (_s : PipelineState) (hasAudioTrack : Bool) : PipelineState :=
  let fresh : PipelineState :=
    { session := initSession, active := true, seqCounter := 0, lastDisplayedSeq := 0
      inflight := 0, pending := [], paceTracker := PaceTracker.reset
      prevWordCount := 0, recentTipTexts := [] }
  if hasAudioTrack then fresh
  else
    { fresh with
      session := { fresh.session with error := some "No audio track available for analysis".data } }

/-- `stopAnalysis`: flips the active flag off; the timer and audio-resource
teardown has no image in this state. The session record is not touched. -/
def stopAnalysis (s : PipelineState) : PipelineState := { s with active := false }

/-- The dispatch part of `harvestAndFire`: skip when inactive, when the
harvested audio is below `MIN_AUDIO_SAMPLES`, or when the in-flight cap is
reached; otherwise assign the next sequence number, count the request as in
flight, and mark the session analyzing. -/
def harvestAndFire (s : PipelineState) (totalSamples : Nat) : PipelineState :=
  if s.active = false then s
  else if totalSamples < MIN_AUDIO_SAMPLES then s
  else if MAX_INFLIGHT ≤ s.inflight then s
  else
    let seq := s.seqCounter + 1
    { s with
      seqCounter := seq
      inflight := s.inflight + 1
      pending := s.pending ++ [seq]
      session := { s.session with isAnalyzing := true, error := none } }

/-- The fulfilled-promise continuation of `harvestAndFire` for request `seq`,
run at wall-clock time `now`: decrement `inflight`; discard when the session
stopped; surface a carried error; discard a stale sequence number; otherwise
feed new transcript words to the tracker, and apply the result (advancing
`lastDisplayedSeq`, sanitizing tips, appending to the history). -/
def resolveResponse (s : PipelineState) (seq : Nat) (result : AnalyzeResult) (now : ℚ) :
    PipelineState :=
  if seq ∈ s.pending then
    let s1 := { s with inflight := s.inflight - 1, pending := s.pending.erase seq }
    if s1.active = false then s1
    else if result.error ≠ [] then
      { s1 with
        session := { s1.session with
          isAnalyzing := decide (0 < s1.inflight)
          error := some result.error } }
    else if seq ≤ s1.lastDisplayedSeq then s1
    else
      let s2 :=
        if result.transcript ≠ [] then
          let totalWords := countWords result.transcript
          if s1.prevWordCount < totalWords then
            { s1 with
              paceTracker := s1.paceTracker.addWords (totalWords - s1.prevWordCount) now
              prevWordCount := totalWords }
          else s1
        else s1
      match result.data with
      | some d =>
        let sanitized := sanitizeTips d.tips s2.recentTipTexts
        { s2 with
          lastDisplayedSeq := seq
          recentTipTexts := sanitized.2
          session := { s2.session with
            pitchData := some { d with tips := sanitized.1 }
            isAnalyzing := decide (0 < s2.inflight)
            cycleCount := s2.session.cycleCount + 1
            error := none
            tipHistory := s2.session.tipHistory ++ sanitized.1
            transcript := if result.transcript ≠ [] then result.transcript else s2.session.transcript } }
      | none => s2
  else s

/-- The rejected-promise continuation (`Promise.catch`) for request `seq`:
decrement `inflight`; discard when stopped; otherwise surface the failure
message and recompute `isAnalyzing`. -/
def rejectResponse (s : PipelineState) (seq : Nat) (message : Str) : PipelineState :=
  if seq ∈ s.pending then
    let s1 := { s with inflight := s.inflight - 1, pending := s.pending.erase seq }
    if s1.active = false then s1
    else
      { s1 with
        session := { s1.session with
          isAnalyzing := decide (0 < s1.inflight)
          error := some message } }
  else s

/-- `Math.round` (half toward positive infinity). -/
def jsRound (x : ℚ) : ℤ := ⌊x + 1 / 2⌋

/-- The 100ms pace-interval callback: when the session is active, run
`PaceTracker.update` and publish the score rounded to two decimals. -/
def paceTick (s : PipelineState) (now : ℚ) : PipelineState :=
  if s.active = false then s
  else
    let r := s.paceTracker.update now
    { s with
      paceTracker := r.2
      session := { s.session with pace := (jsRound (r.1 * 100) : ℚ) / 100 } }

/-- One event of the pipeline. -/
def step (s : PipelineState) : Event → PipelineState
  | .start h => startAnalysis s h
  | .stop => stopAnalysis s
  | .harvest n => harvestAndFire s n
  | .resolve seq r now => resolveResponse s seq r now
  | .reject seq m => rejectResponse s seq m
  | .paceTick now => paceTick s now

/-- A finite trace of events. -/
def run (s : PipelineState) (evs : List Event) : PipelineState := evs.foldl step s

/-- The states the pipeline can reach from idle. -/
inductive Reachable : PipelineState → Prop
  | idle : Reachable PipelineState.idle
  | step {s : PipelineState} (e : Event) : Reachable s → Reachable (step s e)

/-- A response-settling event (fulfilment or rejection of a dispatched
request): the only events the service's completions can cause after
`stopAnalysis`. -/
inductive RespEvent
  | resolve (seq : Nat) (result : AnalyzeResult) (now : ℚ)
  | reject (seq : Nat) (message : Str)

/-- A response-settling event is a pipeline event. -/
def RespEvent.toEvent : RespEvent → Event
  | .resolve seq r now => .resolve seq r now
  | .reject seq m => .reject seq m

/-- Run a trace made only of response settlements. -/
def runResp (s : PipelineState) (evs : List RespEvent) : PipelineState :=
  evs.foldl (fun s e => step s e.toEvent) s

/-! ## PaceTracker theorems -/

theorem neg_one_le_clampUnit (x : ℚ) : -1 ≤ clampUnit x := by
  unfold clampUnit jsMax jsMin
  split_ifs <;> linarith

theorem clampUnit_le_one (x : ℚ) : clampUnit x ≤ 1 := by
  unfold clampUnit jsMax jsMin
  split_ifs <;> linarith

theorem abs_clampUnit_le_one (x : ℚ) : |clampUnit x| ≤ 1 :=
  abs_le.mpr ⟨neg_one_le_clampUnit x, clampUnit_le_one x⟩

theorem clampUnit_of_one_le {x : ℚ} (h : 1 ≤ x) : clampUnit x = 1 := by
  unfold clampUnit jsMax jsMin
  split_ifs <;> linarith

theorem clampUnit_of_le_neg_one {x : ℚ} (h : x ≤ -1) : clampUnit x = -1 := by
  unfold clampUnit jsMax jsMin
  split_ifs <;> linarith

theorem clampUnit_of_mem {x : ℚ} (h1 : -1 ≤ x) (h2 : x ≤ 1) : clampUnit x = x := by
  unfold clampUnit jsMax jsMin
  split_ifs <;> linarith

/-- Scaling by a factor in `[0, 1]` cannot grow the magnitude of the clamped
value. -/
theorem abs_clampUnit_mul_le (c y : ℚ) (h0 : 0 ≤ c) (h1 : c ≤ 1) :
    |clampUnit (c * y)| ≤ |clampUnit y| := by
  rcases le_or_lt 1 y with hy | hy
  · rw [clampUnit_of_one_le hy]
    simpa using abs_clampUnit_le_one (c * y)
  rcases le_or_lt y (-1) with hy' | hy'
  · rw [clampUnit_of_le_neg_one hy']
    simpa using abs_clampUnit_le_one (c * y)
  · have hym : |y| ≤ 1 := abs_le.mpr ⟨le_of_lt hy', le_of_lt hy⟩
    have hcy : |c * y| ≤ |y| := by
      rw [abs_mul, abs_of_nonneg h0]
      nlinarith [abs_nonneg y]
    have hcy1 : |c * y| ≤ 1 := le_trans hcy hym
    rw [clampUnit_of_mem (abs_le.mp hcy1).1 (abs_le.mp hcy1).2,
      clampUnit_of_mem (le_of_lt hy') (le_of_lt hy)]
    exact hcy

/-- Whatever the tracker state, the value `update` returns is the final
clamp, so it lies in `[-1, 1]`. -/
theorem update_fst_bounds (p : PaceTracker) (now : ℚ) :
    -1 ≤ (p.update now).1 ∧ (p.update now).1 ≤ 1 :=
  ⟨neg_one_le_clampUnit _, clampUnit_le_one _⟩

/-- C5: for every finite sequence of `addWords` calls with arbitrary
non-negative counts and timestamps, interleaved with `update` calls at
arbitrary times (from any starting tracker state, in particular the fresh
one), every value returned by `update` lies within `[-1, 1]`. -/
theorem pace_score_bounded (ops : List PaceOp) (p : PaceTracker) (r : ℚ)
    (h : r ∈ (paceRun p ops).2) : -1 ≤ r ∧ r ≤ 1 := by
  induction ops generalizing p with
  | nil => simp [paceRun] at h
  | cons op rest ih =>
    cases op with
    | addWords c t =>
      rw [paceRun] at h
      exact ih _ h
    | update now =>
      rw [paceRun] at h
      rcases List.mem_cons.mp h with h1 | h1
      · subst h1
        exact update_fst_bounds p now
      · exact ih _ h1

/-- Witness for C5: a one-call trace from the fresh tracker returns
`-99/200 = -0.495`, which lies in `[-1, 1]`. -/
theorem pace_score_bounded_witness : -1 ≤ (-99 / 200 : ℚ) ∧ (-99 / 200 : ℚ) ≤ 1 :=
  pace_score_bounded [.update 100] PaceTracker.reset (-99 / 200) (by
    norm_num [paceRun, PaceTracker.update, PaceTracker.reset, evictOld, clampUnit,
      jsMin, jsMax, jsAbs, WINDOW_MS, OPTIMAL_WPS, SILENCE_THRESHOLD_MS, SILENCE_DECAY, BIAS])

/-- The silence branch of `update`, in closed form. -/
theorem update_silence (p : PaceTracker) (now : ℚ)
    (hw : 0 < p.lastWordTime) (hs : SILENCE_THRESHOLD_MS < now - p.lastWordTime) :
    p.update now =
      (clampUnit (p.smoothedPace * SILENCE_DECAY * BIAS),
        { p with
          wordTimestamps := evictOld (now - WINDOW_MS) p.wordTimestamps
          smoothedPace := p.smoothedPace * SILENCE_DECAY }) := by
  simp [PaceTracker.update, hw, hs]

/-- C6 (amended): when at least one word has been recorded
(`lastWordTime > 0`) and `update(now)` is called more than the silence
threshold after it, the returned magnitude is at most the magnitude the
previous `update` returned (which was `clampUnit` of the current smoothed
estimate times the bias), the smoothed estimate is multiplied by `0.92`
rather than recomputed, and a further `update` with no intervening
`addWords` at any `now' ≥ now` returns a magnitude at most this one: the
magnitudes decay monotonically toward zero. -/
theorem pace_silence_decay (p : PaceTracker) (now now' : ℚ)
    (hw : 0 < p.lastWordTime) (hs : SILENCE_THRESHOLD_MS < now - p.lastWordTime)
    (hstep : now ≤ now') :
    |(p.update now).1| ≤ |clampUnit (p.smoothedPace * BIAS)| ∧
    (p.update now).2.smoothedPace = p.smoothedPace * SILENCE_DECAY ∧
    |((p.update now).2.update now').1| ≤ |(p.update now).1| := by
  have hfactor : ∀ z : ℚ, z * SILENCE_DECAY * BIAS = SILENCE_DECAY * (z * BIAS) := by
    intro z; ring
  have h1 := update_silence p now hw hs
  have hdec : (0 : ℚ) ≤ SILENCE_DECAY := by norm_num [SILENCE_DECAY]
  have hdec1 : SILENCE_DECAY ≤ 1 := by norm_num [SILENCE_DECAY]
  refine ⟨?_, ?_, ?_⟩
  · rw [h1, hfactor]
    exact abs_clampUnit_mul_le SILENCE_DECAY (p.smoothedPace * BIAS) hdec hdec1
  · rw [h1]
  · have hw' : 0 < ((p.update now).2).lastWordTime := by rw [h1]; exact hw
    have hs' : SILENCE_THRESHOLD_MS < now' - ((p.update now).2).lastWordTime := by
      rw [h1]
      simp only
      linarith
    have h2 := update_silence ((p.update now).2) now' hw' hs'
    rw [h2, h1]
    simp only
    rw [hfactor]
    exact abs_clampUnit_mul_le SILENCE_DECAY (p.smoothedPace * SILENCE_DECAY * BIAS) hdec hdec1

/-- Witness for C6: a tracker in silence (`lastWordTime = 100`, smoothed
estimate `1/2`) updated at `now = 1000` and again at `now' = 2000`. -/
theorem pace_silence_decay_witness :
    |((⟨[], 1 / 2, 100⟩ : PaceTracker).update 1000).1| ≤
      |clampUnit ((⟨[], 1 / 2, 100⟩ : PaceTracker).smoothedPace * BIAS)| ∧
    ((⟨[], 1 / 2, 100⟩ : PaceTracker).update 1000).2.smoothedPace =
      (⟨[], 1 / 2, 100⟩ : PaceTracker).smoothedPace * SILENCE_DECAY ∧
    |(((⟨[], 1 / 2, 100⟩ : PaceTracker).update 1000).2.update 2000).1| ≤
      |((⟨[], 1 / 2, 100⟩ : PaceTracker).update 1000).1| :=
  pace_silence_decay ⟨[], 1 / 2, 100⟩ 1000 2000 (by norm_num)
    (by norm_num [SILENCE_THRESHOLD_MS]) (by norm_num)

/-- Counterexample to C6 as stated: on a fresh tracker (`lastWordTime = 0`,
so `now - lastWordTime = 1000 > 800` at the second call), the second
`update` returns magnitude `3069/4000 = 0.76725`, strictly larger than the
first call's `99/200 = 0.495`: with no word ever recorded the recompute
branch runs, not the decay branch. -/
theorem pace_silence_decay_cx :
    (PaceTracker.reset.update 100).1 = -99 / 200 ∧
    ((PaceTracker.reset.update 100).2.update 1000).1 = -3069 / 4000 ∧
    SILENCE_THRESHOLD_MS < (1000 : ℚ) - (PaceTracker.reset.update 100).2.lastWordTime ∧
    |(PaceTracker.reset.update 100).1| < |((PaceTracker.reset.update 100).2.update 1000).1| := by
  have e1 : PaceTracker.reset.update 100 = (-99 / 200, ⟨[], -9 / 20, 0⟩) := by
    norm_num [PaceTracker.update, PaceTracker.reset, evictOld, clampUnit,
      jsMin, jsMax, jsAbs, WINDOW_MS, OPTIMAL_WPS, SILENCE_THRESHOLD_MS, SILENCE_DECAY, BIAS]
  have e2 : (⟨[], -9 / 20, 0⟩ : PaceTracker).update 1000 = (-3069 / 4000, ⟨[], -279 / 400, 0⟩) := by
    norm_num [PaceTracker.update, evictOld, clampUnit,
      jsMin, jsMax, jsAbs, WINDOW_MS, OPTIMAL_WPS, SILENCE_THRESHOLD_MS, SILENCE_DECAY, BIAS]
  rw [e1]
  simp only
  rw [e2]
  simp only
  refine ⟨by trivial, by trivial, by norm_num [SILENCE_THRESHOLD_MS], ?_⟩
  rw [abs_of_neg (by norm_num), abs_of_neg (by norm_num)]
  norm_num

/-- C9: on a freshly constructed or reset tracker, on which `addWords` has
never been called with a positive count (`addWords 0` leaves the tracker
unchanged), the silence guard is false regardless of the elapsed time, the
empty window gives a raw clamped score of `-1`, and the first `update`
returns `-99/200 = -0.495` (blend coefficient `0.45` into `0`, biased by
`1.1`) rather than `0`. -/
theorem fresh_tracker_update (now t : ℚ) :
    (PaceTracker.reset.update now).1 = -99 / 200 ∧
    (PaceTracker.reset.update now).2.smoothedPace = -9 / 20 ∧
    ¬(0 < PaceTracker.reset.lastWordTime ∧
        SILENCE_THRESHOLD_MS < now - PaceTracker.reset.lastWordTime) ∧
    clampUnit (((0 : ℚ) / (WINDOW_MS / 1000) - OPTIMAL_WPS) / OPTIMAL_WPS) = -1 ∧
    PaceTracker.reset.addWords 0 t = PaceTracker.reset := by
  refine ⟨?_, ?_, ?_, ?_, ?_⟩ <;>
    norm_num [PaceTracker.update, PaceTracker.reset, PaceTracker.addWords, evictOld,
      clampUnit, jsMin, jsMax, jsAbs, WINDOW_MS, OPTIMAL_WPS, SILENCE_THRESHOLD_MS,
      SILENCE_DECAY, BIAS]

/-! ## Tip sanitizer theorems -/

/-- Counterexample to C7 as stated: the regex strips only the first
matching forbidden phrase, once. On the tip text `You should consider X`
one pass yields `Consider X`, not `X`; and a second application of
`sanitizeTips` to the first pass's output (with the window the first pass
produced) yields the empty list, not the same output. -/
theorem sanitize_strip_once_cx :
    (sanitizeTips [⟨"t1".data, "You should consider X".data, "content".data, "high".data⟩]
        []).1 ≠
      [⟨"t1".data, "X".data, "content".data, "high".data⟩] ∧
    (sanitizeTips
        (sanitizeTips [⟨"t1".data, "You should consider X".data, "content".data, "high".data⟩]
          []).1
        (sanitizeTips [⟨"t1".data, "You should consider X".data, "content".data, "high".data⟩]
          []).2).1 ≠
      (sanitizeTips [⟨"t1".data, "You should consider X".data, "content".data, "high".data⟩]
        []).1 := by
  decide

/-- C7 (amended): one pass strips exactly one forbidden leading phrase: the
tip `You should consider X` becomes `Consider X` (the leading `You should`
stripped, first letter re-capitalized). Sanitization is not idempotent: a
second pass would strip the now-leading `Consider` down to `X`, but drops
that tip entirely as a duplicate of the `Consider X` the first pass put in
the recent-history window, so applying `sanitizeTips` twice yields the
empty list rather than the output of one application. -/
theorem sanitize_strip_once :
    sanitizeTips [⟨"t1".data, "You should consider X".data, "content".data, "high".data⟩] [] =
      ([⟨"t1".data, "Consider X".data, "content".data, "high".data⟩], ["Consider X".data]) ∧
    processTipText "Consider X".data = "X".data ∧
    sanitizeTips [⟨"t1".data, "Consider X".data, "content".data, "high".data⟩]
        ["Consider X".data] =
      ([], ["Consider X".data]) := by
  decide

/-- C8: the same tip text in two successive `sanitizeTips` calls is accepted
the first time and dropped as a duplicate the second; after seven
(`RECENT_TIPS_WINDOW + 1`) distinct tips pass through, the window has been
trimmed to its last six entries, so the original text is accepted again. -/
theorem dedup_window_cycle :
    sanitizeTips [⟨"a".data, "Great hook opening".data, "delivery".data, "high".data⟩] [] =
      ([⟨"a".data, "Great hook opening".data, "delivery".data, "high".data⟩],
        ["Great hook opening".data]) ∧
    sanitizeTips [⟨"a".data, "Great hook opening".data, "delivery".data, "high".data⟩]
        ["Great hook opening".data] =
      ([], ["Great hook opening".data]) ∧
    (sanitizeTips
        [⟨"d1".data, "Alpha".data, "content".data, "low".data⟩,
         ⟨"d2".data, "Bravo".data, "content".data, "low".data⟩,
         ⟨"d3".data, "Charlie".data, "content".data, "low".data⟩,
         ⟨"d4".data, "Delta".data, "content".data, "low".data⟩,
         ⟨"d5".data, "Echo".data, "content".data, "low".data⟩,
         ⟨"d6".data, "Foxtrot".data, "content".data, "low".data⟩,
         ⟨"d7".data, "Zulu".data, "content".data, "low".data⟩]
        ["Great hook opening".data]).2 =
      ["Bravo".data, "Charlie".data, "Delta".data, "Echo".data, "Foxtrot".data, "Zulu".data] ∧
    (sanitizeTips [⟨"a".data, "Great hook opening".data, "delivery".data, "high".data⟩]
        ["Bravo".data, "Charlie".data, "Delta".data, "Echo".data, "Foxtrot".data,
          "Zulu".data]).1 =
      [⟨"a".data, "Great hook opening".data, "delivery".data, "high".data⟩] := by
  decide

/-- C10: every tip `sanitizeTips` emits has nonempty text (a tip whose text
reduces to the empty string after stripping and trimming is dropped
entirely), and comes from an input tip whose `id`, `category` and `priority`
it preserves, with only the text rewritten (by `processTipText`). -/
theorem sanitize_emit_shape (tips : List CoachingTip) (window : List Str) (t : CoachingTip)
    (h : t ∈ (sanitizeTips tips window).1) :
    t.text ≠ [] ∧
    ∃ src ∈ tips, t.id = src.id ∧ t.category = src.category ∧
      t.priority = src.priority ∧ t.text = processTipText src.text := by
  have h' : t ∈ sanitizeLoop window tips := h
  clear h
  induction tips with
  | nil => simp [sanitizeLoop] at h'
  | cons tip rest ih =>
    rw [sanitizeLoop] at h'
    by_cases hc :
        isDuplicateTip window (normalizeTip (processTipText tip.text)) = false ∧
          processTipText tip.text ≠ []
    · rw [if_pos hc] at h'
      rcases List.mem_cons.mp h' with h1 | h1
      · subst h1
        exact ⟨hc.2, tip, List.mem_cons_self tip rest, rfl, rfl, rfl, rfl⟩
      · rcases ih h1 with ⟨hne, src, hsrc, hrest⟩
        exact ⟨hne, src, List.mem_cons_of_mem tip hsrc, hrest⟩
    · rw [if_neg hc] at h'
      rcases ih h' with ⟨hne, src, hsrc, hrest⟩
      exact ⟨hne, src, List.mem_cons_of_mem tip hsrc, hrest⟩

/-- Witness for C10: the tip `Good pacing here` survives sanitization
against an empty window and has the claimed shape. -/
theorem sanitize_emit_shape_witness :
    (⟨"g1".data, "Good pacing here".data, "delivery".data, "medium".data⟩ :
        CoachingTip).text ≠ [] ∧
    ∃ src ∈ [(⟨"g1".data, "Good pacing here".data, "delivery".data, "medium".data⟩ :
        CoachingTip)],
      (⟨"g1".data, "Good pacing here".data, "delivery".data, "medium".data⟩ :
          CoachingTip).id = src.id ∧
      (⟨"g1".data, "Good pacing here".data, "delivery".data, "medium".data⟩ :
          CoachingTip).category = src.category ∧
      (⟨"g1".data, "Good pacing here".data, "delivery".data, "medium".data⟩ :
          CoachingTip).priority = src.priority ∧
      (⟨"g1".data, "Good pacing here".data, "delivery".data, "medium".data⟩ :
          CoachingTip).text = processTipText src.text :=
  sanitize_emit_shape
    [⟨"g1".data, "Good pacing here".data, "delivery".data, "medium".data⟩] []
    ⟨"g1".data, "Good pacing here".data, "delivery".data, "medium".data⟩ (by decide)

/-! ## Dispatcher theorems -/

/-- A harvest that arrives at (or above) the in-flight cap changes nothing:
no sequence number is assigned, nothing is dispatched or queued. -/
theorem harvest_at_cap (s : PipelineState) (n : Nat) (h : MAX_INFLIGHT ≤ s.inflight) :
    harvestAndFire s n = s := by
  unfold harvestAndFire
  split_ifs <;> rfl

/-- Settling a response never increases the in-flight counter. -/
theorem resolve_inflight_le (s : PipelineState) (seq : Nat) (r : AnalyzeResult) (now : ℚ) :
    (resolveResponse s seq r now).inflight ≤ s.inflight := by
  simp only [resolveResponse]
  split_ifs <;> cases r.data <;> simp

/-- Rejection never increases the in-flight counter. -/
theorem reject_inflight_le (s : PipelineState) (seq : Nat) (m : Str) :
    (rejectResponse s seq m).inflight ≤ s.inflight := by
  simp only [rejectResponse]
  split_ifs <;> simp

/-- Every event either keeps the in-flight counter at most where it was, or
leaves it within the cap. -/
theorem step_inflight_le (s : PipelineState) (e : Event) :
    (step s e).inflight ≤ s.inflight ∨ (step s e).inflight ≤ MAX_INFLIGHT := by
  cases e with
  | start h =>
    right
    cases h <;> simp [step, startAnalysis, MAX_INFLIGHT]
  | stop => left; simp [step, stopAnalysis]
  | harvest n =>
    simp only [step, harvestAndFire]
    split_ifs with h1 h2 h3
    · left; exact le_refl _
    · left; exact le_refl _
    · left; exact le_refl _
    · right
      simp only [MAX_INFLIGHT] at h3 ⊢
      omega
  | resolve seq r now => left; exact resolve_inflight_le s seq r now
  | reject seq m => left; exact reject_inflight_le s seq m
  | paceTick now =>
    left
    simp only [step, paceTick]
    split_ifs <;> simp

/-- C2: in every reachable pipeline state the number of dispatched but
unresolved requests never exceeds `MAX_INFLIGHT = 3`, and a harvested
segment arriving while the counter is at the cap is dropped outright: the
state is unchanged, so no sequence number is assigned, nothing is
dispatched and nothing is queued. -/
theorem inflight_cap (s : PipelineState) (h : Reachable s) :
    s.inflight ≤ MAX_INFLIGHT ∧
    ∀ n, MAX_INFLIGHT ≤ s.inflight → step s (.harvest n) = s := by
  refine ⟨?_, fun n hn => harvest_at_cap s n hn⟩
  induction h with
  | idle => simp [PipelineState.idle]
  | step e hr ih =>
    rcases step_inflight_le _ e with h1 | h1
    · exact le_trans h1 ih
    · exact h1

/-- Witness for C2: the idle pipeline is reachable and satisfies the cap. -/
theorem inflight_cap_witness :
    PipelineState.idle.inflight ≤ MAX_INFLIGHT ∧
    ∀ n, MAX_INFLIGHT ≤ PipelineState.idle.inflight →
      step PipelineState.idle (.harvest n) = PipelineState.idle :=
  inflight_cap PipelineState.idle Reachable.idle

/-- Fulfilment never moves `lastDisplayedSeq` backward: it is advanced only
to a sequence number that passed the strictly-greater staleness check. -/
theorem resolve_lastDisplayed_mono (s : PipelineState) (seq : Nat) (r : AnalyzeResult)
    (now : ℚ) :
    s.lastDisplayedSeq ≤ (resolveResponse s seq r now).lastDisplayedSeq := by
  simp only [resolveResponse]
  split_ifs <;> cases r.data <;> simp <;> omega

/-- Rejection never changes `lastDisplayedSeq`. -/
theorem reject_lastDisplayed_mono (s : PipelineState) (seq : Nat) (m : Str) :
    s.lastDisplayedSeq ≤ (rejectResponse s seq m).lastDisplayedSeq := by
  simp only [rejectResponse]
  split_ifs <;> simp

/-- C1 (amended): `lastDisplayedSeq` is non-decreasing across every response
settlement, and a resolved response carrying no error whose sequence number
is at most the current `lastDisplayedSeq` is dropped with no state change
beyond the in-flight bookkeeping: `pitchData`, `transcript`, `cycleCount`,
`tipHistory` and `error` are untouched. (A stale response that carries an
error is handled by the error path, which precedes the staleness check and
does record the error message.) -/
theorem stale_drop_monotone (s : PipelineState) (seq : Nat) (r : AnalyzeResult) (now : ℚ)
    (hp : seq ∈ s.pending) (ha : s.active = true) (he : r.error = [])
    (hst : seq ≤ s.lastDisplayedSeq) :
    step s (.resolve seq r now) =
      { s with inflight := s.inflight - 1, pending := s.pending.erase seq } ∧
    ∀ (u : PipelineState) (q : Nat) (r' : AnalyzeResult) (now' : ℚ) (m : Str),
      u.lastDisplayedSeq ≤ (step u (.resolve q r' now')).lastDisplayedSeq ∧
      u.lastDisplayedSeq ≤ (step u (.reject q m)).lastDisplayedSeq := by
  constructor
  · simp only [step, resolveResponse]
    rw [if_pos hp]
    simp [ha, he, hst]
  · intro u q r' now' m
    exact ⟨resolve_lastDisplayed_mono u q r' now', reject_lastDisplayed_mono u q m⟩

/-- Witness for C1: a state with `lastDisplayedSeq = 2` receives the stale
error-free response with sequence 1; only the in-flight bookkeeping
changes. -/
theorem stale_drop_monotone_witness :
    step (⟨initSession, true, 2, 2, 2, [1, 2], PaceTracker.reset, 0, []⟩ : PipelineState)
        (.resolve 1 ⟨[], [], none⟩ 0) =
      { (⟨initSession, true, 2, 2, 2, [1, 2], PaceTracker.reset, 0, []⟩ : PipelineState) with
        inflight :=
          (⟨initSession, true, 2, 2, 2, [1, 2], PaceTracker.reset, 0, []⟩ :
            PipelineState).inflight - 1
        pending :=
          (⟨initSession, true, 2, 2, 2, [1, 2], PaceTracker.reset, 0, []⟩ :
            PipelineState).pending.erase 1 } ∧
    ∀ (u : PipelineState) (q : Nat) (r' : AnalyzeResult) (now' : ℚ) (m : Str),
      u.lastDisplayedSeq ≤ (step u (.resolve q r' now')).lastDisplayedSeq ∧
      u.lastDisplayedSeq ≤ (step u (.reject q m)).lastDisplayedSeq :=
  stale_drop_monotone ⟨initSession, true, 2, 2, 2, [1, 2], PaceTracker.reset, 0, []⟩
    1 ⟨[], [], none⟩ 0 (by decide) (by decide) (by decide) (by decide)

/-- Counterexample to C1 as stated: after `start`, two dispatches and the
display of sequence 2, the stale (`1 ≤ lastDisplayedSeq`) response for
sequence 1 that carries an error is not silently dropped — it overwrites
`SessionState.error` — because the error path runs before the staleness
check. -/
theorem stale_drop_monotone_cx :
    (run PipelineState.idle
        [.start true, .harvest 2400, .harvest 2400,
          .resolve 2 ⟨[], [], some ⟨[], [], []⟩⟩ 0]).active = true ∧
    1 ∈ (run PipelineState.idle
        [.start true, .harvest 2400, .harvest 2400,
          .resolve 2 ⟨[], [], some ⟨[], [], []⟩⟩ 0]).pending ∧
    1 ≤ (run PipelineState.idle
        [.start true, .harvest 2400, .harvest 2400,
          .resolve 2 ⟨[], [], some ⟨[], [], []⟩⟩ 0]).lastDisplayedSeq ∧
    (run PipelineState.idle
        [.start true, .harvest 2400, .harvest 2400,
          .resolve 2 ⟨[], [], some ⟨[], [], []⟩⟩ 0]).session.error = none ∧
    (step (run PipelineState.idle
        [.start true, .harvest 2400, .harvest 2400,
          .resolve 2 ⟨[], [], some ⟨[], [], []⟩⟩ 0])
        (.resolve 1 ⟨"boom".data, [], none⟩ 0)).session.error = some "boom".data ∧
    (step (run PipelineState.idle
        [.start true, .harvest 2400, .harvest 2400,
          .resolve 2 ⟨[], [], some ⟨[], [], []⟩⟩ 0])
        (.resolve 1 ⟨"boom".data, [], none⟩ 0)).lastDisplayedSeq =
      (run PipelineState.idle
        [.start true, .harvest 2400, .harvest 2400,
          .resolve 2 ⟨[], [], some ⟨[], [], []⟩⟩ 0]).lastDisplayedSeq := by
  decide

/-- Once the session is inactive, settling any response leaves the session
record untouched and the session inactive. -/
theorem resp_inactive_invariant (s : PipelineState) (e : RespEvent) (h : s.active = false) :
    (step s e.toEvent).session = s.session ∧ (step s e.toEvent).active = false := by
  cases e with
  | resolve seq r now =>
    simp only [RespEvent.toEvent, step, resolveResponse]
    by_cases hp : seq ∈ s.pending
    · rw [if_pos hp]
      simp [h]
    · rw [if_neg hp]
      exact ⟨rfl, h⟩
  | reject seq m =>
    simp only [RespEvent.toEvent, step, rejectResponse]
    by_cases hp : seq ∈ s.pending
    · rw [if_pos hp]
      simp [h]
    · rw [if_neg hp]
      exact ⟨rfl, h⟩

/-- C3: after `stopAnalysis`, every sequence of late response settlements
(fulfilments, with or without a carried error, and rejections) leaves the
session record exactly as it was at stop time — `pitchData`, `transcript`,
`cycleCount`, `tipHistory` and `error` included — and the session stays
inactive. -/
theorem stop_discards_late (s : PipelineState) (evs : List RespEvent) :
    (runResp (stopAnalysis s) evs).session = s.session ∧
    (runResp (stopAnalysis s) evs).active = false := by
  suffices h : ∀ u : PipelineState, u.active = false →
      (runResp u evs).session = u.session ∧ (runResp u evs).active = false by
    have hstop : (stopAnalysis s).active = false := rfl
    have := h (stopAnalysis s) hstop
    exact ⟨this.1, this.2⟩
  induction evs with
  | nil => exact fun u hu => ⟨rfl, hu⟩
  | cons e rest ih =>
    intro u hu
    have h1 := resp_inactive_invariant u e hu
    have h2 := ih (step u e.toEvent) h1.2
    exact ⟨h2.1.trans h1.1, h2.2⟩

/-- C4: when a resolved response carries an error during an active session,
the dispatcher records the error message in `SessionState.error`, recomputes
`isAnalyzing` from the decremented in-flight counter rather than clearing it
unconditionally, does not advance `lastDisplayedSeq`, and leaves
`pitchData`, `cycleCount` and `tipHistory` unchanged. -/
theorem error_response_state (s : PipelineState) (seq : Nat) (r : AnalyzeResult) (now : ℚ)
    (hp : seq ∈ s.pending) (ha : s.active = true) (he : r.error ≠ []) :
    step s (.resolve seq r now) =
      { s with
        inflight := s.inflight - 1
        pending := s.pending.erase seq
        session := { s.session with
          isAnalyzing := decide (0 < s.inflight - 1)
          error := some r.error } } ∧
    (step s (.resolve seq r now)).lastDisplayedSeq = s.lastDisplayedSeq ∧
    (step s (.resolve seq r now)).session.pitchData = s.session.pitchData ∧
    (step s (.resolve seq r now)).session.cycleCount = s.session.cycleCount ∧
    (step s (.resolve seq r now)).session.tipHistory = s.session.tipHistory := by
  have hmain :
      step s (.resolve seq r now) =
        { s with
          inflight := s.inflight - 1
          pending := s.pending.erase seq
          session := { s.session with
            isAnalyzing := decide (0 < s.inflight - 1)
            error := some r.error } } := by
    simp only [step, resolveResponse]
    rw [if_pos hp]
    simp [ha, he]
  rw [hmain]
  exact ⟨rfl, rfl, rfl, rfl, rfl⟩

/-- Witness for C4: with two requests in flight, the error response for
sequence 1 surfaces its message while `isAnalyzing` stays true, computed
from the remaining in-flight request. -/
theorem error_response_state_witness :
    step (⟨initSession, true, 2, 0, 2, [1, 2], PaceTracker.reset, 0, []⟩ : PipelineState)
        (.resolve 1 ⟨"x".data, [], none⟩ 0) =
      { (⟨initSession, true, 2, 0, 2, [1, 2], PaceTracker.reset, 0, []⟩ : PipelineState) with
        inflight :=
          (⟨initSession, true, 2, 0, 2, [1, 2], PaceTracker.reset, 0, []⟩ :
            PipelineState).inflight - 1
        pending :=
          (⟨initSession, true, 2, 0, 2, [1, 2], PaceTracker.reset, 0, []⟩ :
            PipelineState).pending.erase 1
        session :=
          { (⟨initSession, true, 2, 0, 2, [1, 2], PaceTracker.reset, 0, []⟩ :
              PipelineState).session with
            isAnalyzing :=
              decide (0 <
                (⟨initSession, true, 2, 0, 2, [1, 2], PaceTracker.reset, 0, []⟩ :
                  PipelineState).inflight - 1)
            error := some "x".data } } ∧
    (step (⟨initSession, true, 2, 0, 2, [1, 2], PaceTracker.reset, 0, []⟩ : PipelineState)
        (.resolve 1 ⟨"x".data, [], none⟩ 0)).lastDisplayedSeq =
      (⟨initSession, true, 2, 0, 2, [1, 2], PaceTracker.reset, 0, []⟩ :
        PipelineState).lastDisplayedSeq ∧
    (step (⟨initSession, true, 2, 0, 2, [1, 2], PaceTracker.reset, 0, []⟩ : PipelineState)
        (.resolve 1 ⟨"x".data, [], none⟩ 0)).session.pitchData =
      (⟨initSession, true, 2, 0, 2, [1, 2], PaceTracker.reset, 0, []⟩ :
        PipelineState).session.pitchData ∧
    (step (⟨initSession, true, 2, 0, 2, [1, 2], PaceTracker.reset, 0, []⟩ : PipelineState)
        (.resolve 1 ⟨"x".data, [], none⟩ 0)).session.cycleCount =
      (⟨initSession, true, 2, 0, 2, [1, 2], PaceTracker.reset, 0, []⟩ :
        PipelineState).session.cycleCount ∧
    (step (⟨initSession, true, 2, 0, 2, [1, 2], PaceTracker.reset, 0, []⟩ : PipelineState)
        (.resolve 1 ⟨"x".data, [], none⟩ 0)).session.tipHistory =
      (⟨initSession, true, 2, 0, 2, [1, 2], PaceTracker.reset, 0, []⟩ :
        PipelineState).session.tipHistory :=
  error_response_state ⟨initSession, true, 2, 0, 2, [1, 2], PaceTracker.reset, 0, []⟩
    1 ⟨"x".data, [], none⟩ 0 (by decide) (by decide) (by decide)

end Pitchly
